import Mathlib

/-!
Verification development for the Advotac retrieval-augmented answering pipeline
(`fastapi/services/answer_llm.py`, single-collection variant, and
`fastapi/services/answer_llm2.py`, multi-collection variant).

The Python code is shallowly embedded:
* payload dictionaries become structures of `Option String` fields, one per key
  the code reads (a missing key is `none`; all payload values reaching the
  studied code paths are strings);
* Python floats are modelled as exact rationals (`ℚ`); where the code's
  behaviour depends on IEEE-754 rounding (the `round` calls inside
  `weighted_blend`) the theorems quantify over any value within a generous
  error bound of the exact product, so they cover every faithful floating
  point evaluation;
* every network/LLM effect (query rewriting, embedding, vector search, model
  reranking, generation, validation) is an input supplied through an
  environment record: `none` models the corresponding `except`-caught failure.
-/

namespace Py

/-- Python truthiness of an optional string: `None` and `""` are falsy. -/
def truthy : Option String → Bool
  | some s => s != ""
  | none => false

/-- Python `a or b` on two optional strings. -/
def pyOr (a b : Option String) : Option String :=
  if truthy a then a else b

/-- Python `p.get(k) or ""` / `p.get(k, "")` for string payload values. -/
def getStr (o : Option String) : String := o.getD ""

/-- Python `str.strip()` (leading and trailing whitespace removed). -/
def pyStrip (s : String) : String :=
  String.mk (((s.toList.dropWhile Char.isWhitespace).reverse.dropWhile
    Char.isWhitespace).reverse)

/-- Python `str.upper()` (ASCII case mapping, which is all the code relies on). -/
def pyUpper (s : String) : String := String.mk (s.toList.map Char.toUpper)

/-- Python `str.lower()`. -/
def pyLower (s : String) : String := String.mk (s.toList.map Char.toLower)

/-- Python `str[:n]` — the first `n` characters. -/
def pyTake (s : String) (n : ℕ) : String := String.mk (s.toList.take n)

/-- Whether the first list is a prefix of the second. -/
def listPrefixOf : List Char → List Char → Bool
  | [], _ => true
  | _ :: _, [] => false
  | c :: cs, d :: ds => c == d && listPrefixOf cs ds

/-- Whether the first list occurs contiguously inside the second. -/
def listInfixOf (needle hay : List Char) : Bool :=
  match hay with
  | [] => needle.isEmpty
  | _ :: t => listPrefixOf needle hay || listInfixOf needle t

/-- Python `needle in hay` substring test. -/
def containsSub (hay needle : String) : Bool :=
  listInfixOf needle.toList hay.toList

/-- Whether the first string is a suffix of the second. -/
def suffixOf (needle hay : String) : Bool :=
  listPrefixOf needle.toList.reverse hay.toList.reverse

/-- Python `sep.join(xs)`. -/
def joinWith (sep : String) : List String → String
  | [] => ""
  | [x] => x
  | x :: y :: xs => x ++ sep ++ joinWith sep (y :: xs)

/-- Python's `round` on a rational value: round half to even, exactly the
rounding CPython applies to the (binary) value of a float. -/
def pyround (q : ℚ) : ℤ :=
  if q - ⌊q⌋ = 1/2 then (if Even ⌊q⌋ then ⌊q⌋ else ⌊q⌋ + 1) else round q

/-- Stable insertion of a scored item into a score-descending list: the item
goes after every earlier item of greater-or-equal score, matching the stable
`list.sort(key=..., reverse=True)` of Python. -/
def insertDesc {α : Type} (x : ℚ × α) : List (ℚ × α) → List (ℚ × α)
  | [] => [x]
  | y :: ys => if y.1 < x.1 then x :: y :: ys else y :: insertDesc x ys

/-- Stable sort, descending by the `ℚ` component (Python stable sort with
`reverse=True`): the unique stable descending ordering. -/
def sortByScoreDesc {α : Type} (l : List (ℚ × α)) : List (ℚ × α) :=
  l.foldl (fun acc x => insertDesc x acc) []

/-- The specification's "threshold-then-fallback-to-unfiltered-top-K" rule:
keep the candidates whose score clears the threshold and truncate to `top_k`;
when none clears it, truncate the unfiltered ordering instead. -/
def thresholdTopK {α : Type} (getScore : α → ℚ) (threshold : ℚ) (top_k : ℤ)
    (ordered : List α) : List α :=
  match ordered.filter (fun h => threshold ≤ getScore h) with
  | [] => ordered.take top_k.toNat
  | f0 :: fs => (f0 :: fs).take top_k.toNat

end Py

open Py

/-- Failure modes of `answer_query`: the explicit `ValueError`s raised on bad
arguments, the `RuntimeError`s the pipelines wrap dependency failures in, and
an uncaught exception escaping an un-wrapped LLM call. -/
inductive PipeError : Type
  | invalidInput (msg : String)
  | runtimeError (msg : String)
  | modelError
deriving DecidableEq

namespace AnswerLlm

/-- Payload dictionary of a hit from `answer_llm.py`, one optional field per
key the module reads; a missing key is `none`. -/
structure Payload : Type where
  layer : Option String := none
  level : Option String := none
  chunk_level : Option String := none
  section_number : Option String := none
  section_number_norm : Option String := none
  clause : Option String := none
  sub_section : Option String := none
  search_text : Option String := none
  doc_title : Option String := none
  section_heading : Option String := none
  breadcrumbs : Option String := none
deriving DecidableEq

/-- Embeds `Hit` dataclass: raw vector-similarity score plus the payload. -/
structure Hit : Type where
  score : ℚ
  payload : Payload
deriving DecidableEq

/-- Embeds `Source` pydantic model: the display-safe projection of a hit. -/
structure Source : Type where
  score : ℚ
  layer : String
  doc_title : Option String := none
  section_number : Option String := none
  section_heading : Option String := none
  breadcrumbs : Option String := none
  snippet : Option String := none
deriving DecidableEq

/-- Embeds `AnswerResponse` pydantic model of the single-collection pipeline. -/
structure AnswerResponse : Type where
  query : String
  answer : String
  expanded_queries : List String
  sources : List Source
  validation : Option String := none
deriving DecidableEq

/-- Normalisation of one explicit tier value:
`str(value).strip().upper()` kept only when it is `L1`, `L2` or `L3`. -/
def tierOf (v : String) : Option String :=
  let u := pyUpper (pyStrip v)
  if u = "L1" ∨ u = "L2" ∨ u = "L3" then some u else none

/-- Scanner for the regex `\(\w+\)`: after a word-character run, the run must
be closed by `)` (the continuation of `afterParen`). -/
def closeScan (isWord : Char → Bool) : List Char → Bool
  | [] => false
  | c :: rest => c == ')' || (isWord c && closeScan isWord rest)

/-- After an opening parenthesis: at least one word character, then `closeScan`. -/
def afterParen (isWord : Char → Bool) : List Char → Bool
  | [] => false
  | c :: rest => isWord c && closeScan isWord rest

/-- Word characters of the regex `\w` (ASCII reading, which covers every
payload the studied code paths receive). -/
def isWordChar (c : Char) : Bool := c.isAlphanum || c == '_'

/-- Embeds `re.search(r"\(\w+\)", s)` as a Boolean: some position starts `(`,
one-or-more word characters, `)`. -/
def hasParenWord : List Char → Bool
  | [] => false
  | c :: rest => (c == '(' && afterParen isWordChar rest) || hasParenWord rest

/-- Embeds `detect_layer`: honour the first valid explicit tier field among
`layer`, `level`, `chunk_level` (an invalid or missing value falls through to
the next key), else the structural heuristic: clause marker ⇒ L3, section
identifier ⇒ L2, default L1. -/
def detect_layer (p : Payload) : String :=
  match p.layer.bind tierOf with
  | some t => t
  | none =>
    match p.level.bind tierOf with
    | some t => t
    | none =>
      match p.chunk_level.bind tierOf with
      | some t => t
      | none =>
        if truthy p.clause || truthy p.sub_section
            || hasParenWord (getStr p.search_text).toList then "L3"
        else if truthy p.section_number || truthy p.section_number_norm then "L2"
        else "L1"

/-- Characters matched by the token regex `[A-Za-z0-9\-\(\)\/\.]`. -/
def isTokChar (c : Char) : Bool :=
  c.isAlphanum || c == '-' || c == '(' || c == ')' || c == '/' || c == '.'

/-- Maximal runs of token characters (the `findall` of `_WORD_RE`), with the
current run accumulated in reverse. -/
def tokenRuns : List Char → List Char → List (List Char)
  | [], cur => if cur.isEmpty then [] else [cur.reverse]
  | c :: rest, cur =>
    if isTokChar c then tokenRuns rest (c :: cur)
    else if cur.isEmpty then tokenRuns rest [] else cur.reverse :: tokenRuns rest []

/-- Embeds `simple_tokens`: lower-cased word tokens of a string (every token found by
the regex is non-empty and whitespace-free, so the `w.strip()` filter of the
source never drops anything). -/
def simple_tokens (s : String) : List String :=
  (tokenRuns s.toList []).map (fun cs => String.mk (cs.map Char.toLower))

/-- Embeds `jaccard_like_overlap`: share of distinct query tokens present among the
text's tokens; `0` when the text has no tokens. -/
def jaccard_like_overlap (q_tokens : List String) (text : String) : ℚ :=
  let t_tokens := (simple_tokens text).dedup
  if t_tokens = [] then 0
  else
    let q_set := q_tokens.dedup
    ((q_set.filter (fun w => t_tokens.contains w)).length : ℚ)
      / (max 1 q_set.length : ℚ)

/-- Embeds `build_act_priors`: fixed keyword → statute-family pattern rules, appended
in source order when any keyword occurs in the lower-cased query. -/
def build_act_priors (query : String) : List (String × ℚ) :=
  let q := pyLower query
  (if ["admissible", "certificate", "65b", "electronic record"].any
      (fun k => containsSub q k) then [("indian evidence act", 22/100)] else [])
  ++ (if ["intermediary", "safe-harbour", "69a", "79"].any
      (fun k => containsSub q k) then [("information technology act", 20/100)] else [])
  ++ (if ["arrest", "482", "fir quash"].any
      (fun k => containsSub q k) then [("code of criminal procedure", 18/100)] else [])
  ++ (if ["related party", "section 188", "board approval"].any
      (fun k => containsSub q k) then [("companies act", 16/100)] else [])
  ++ (if ["29a", "resolution applicant", "coc", "cirp"].any
      (fun k => containsSub q k) then [("insolvency and bankruptcy code", 16/100)] else [])
  ++ (if ["8(1)", "personal information", "pio"].any
      (fun k => containsSub q k) then [("right to information act", 16/100)] else [])

/-- Embeds `prior_boost_for_hit`: add the value of every matching pattern (the
patterns are literal lower-case strings, matched case-insensitively against
`doc_title`), capped at `0.35`. -/
def prior_boost_for_hit (priors : List (String × ℚ)) (p : Payload) : ℚ :=
  let act := pyLower (getStr p.doc_title)
  min (priors.foldl (fun acc pv => if containsSub act pv.1 then acc + pv.2 else acc) 0)
    (35/100)

/-- Embeds `gather_text_for_overlap`: the truthy metadata parts joined by `" | "`. -/
def gather_text_for_overlap (p : Payload) : String :=
  joinWith " | " (([getStr p.doc_title, getStr p.section_heading,
    getStr (pyOr p.section_number_norm p.section_number),
    getStr p.breadcrumbs, getStr p.search_text]).filter (fun s => s != ""))

/-- The combined heuristic score
`alpha * vec_norm + beta * overlap + gamma * pboost` of `heuristic_rerank`. -/
def combinedScore (alpha beta gamma vec_norm overlap pboost : ℚ) : ℚ :=
  alpha * vec_norm + beta * overlap + gamma * pboost

/-- Default weights of `heuristic_rerank`. -/
def alphaDefault : ℚ := 65/100

/-- Default lexical-overlap weight. -/
def betaDefault : ℚ := 25/100

/-- Default prior-boost weight. -/
def gammaDefault : ℚ := 10/100

/-- Embeds `heuristic_rerank` with the default weights (the pipeline never passes
others): score each hit, stable-sort descending by combined score. -/
def heuristic_rerank (query : String) (hits : List Hit) : List Hit :=
  match hits with
  | [] => []
  | h0 :: _ =>
    let q_tokens := simple_tokens query
    let m := hits.foldl (fun a h => max a h.score) h0.score
    let max_vec := if m = 0 then 1 else m
    let priors := build_act_priors query
    (sortByScoreDesc (hits.map (fun h =>
      (combinedScore alphaDefault betaDefault gammaDefault
        (h.score / max_vec)
        (jaccard_like_overlap q_tokens (gather_text_for_overlap h.payload))
        (prior_boost_for_hit priors h.payload), h)))).map Prod.snd

/-- Embeds `llm_rerank`: `None` for an empty candidate list or any failed/unparsable
model call; otherwise the parsed `(score, id)` rows restricted to ids indexing
the first 24 candidates, mapped back to hits and stable-sorted descending. -/
def llm_rerank (rows : Option (List (ℚ × ℤ))) (hits : List Hit) :
    Option (List (ℚ × Hit)) :=
  match hits with
  | [] => none
  | _ =>
    match rows with
    | none => none
    | some rs =>
      some (sortByScoreDesc (rs.filterMap (fun si =>
        if si.2 < 0 then none
        else ((hits.take 24).get? si.2.toNat).map (fun h => (si.1, h)))))

/-- Embeds `LAYER_WEIGHTS["L1"]`. -/
def weightL1 : ℚ := 15/100

/-- Embeds `LAYER_WEIGHTS["L2"]`. -/
def weightL2 : ℚ := 55/100

/-- Embeds `l1n = max(0, int(round(total * LAYER_WEIGHTS["L1"])))`. -/
def blend_l1n (total : ℤ) : ℤ := max 0 (pyround ((total : ℚ) * weightL1))

/-- Embeds `l2n = max(0, int(round(total * LAYER_WEIGHTS["L2"])))`. -/
def blend_l2n (total : ℤ) : ℤ := max 0 (pyround ((total : ℚ) * weightL2))

/-- Embeds `l3n = max(0, total - l1n - l2n)`. -/
def blend_l3n (total : ℤ) : ℤ := max 0 (total - blend_l1n total - blend_l2n total)

/-- Embeds `weighted_blend`: bucket the hits per layer preserving order (the
`per_layer` dict), take the per-layer targets, then backfill in priority order
L3→L2→L1 until `total` hits are collected — appending from the leftover
suffixes of the three buckets until the length reaches `total` is exactly what
the source's nested loops do, since they test the length after every append. -/
def weighted_blend (hits_with_scores : List (ℚ × Hit)) (top_k : ℤ) : List Hit :=
  match hits_with_scores with
  | [] => []
  | _ =>
    let hs := hits_with_scores.map Prod.snd
    let l1s := hs.filter (fun h => detect_layer h.payload == "L1")
    let l2s := hs.filter (fun h => detect_layer h.payload == "L2")
    let l3s := hs.filter (fun h => detect_layer h.payload == "L3")
    let total := max 1 top_k
    let t := total.toNat
    let a := (blend_l1n total).toNat
    let b := (blend_l2n total).toNat
    let c := (blend_l3n total).toNat
    let initial := l3s.take c ++ l2s.take b ++ l1s.take a
    let rems := l3s.drop c ++ l2s.drop b ++ l1s.drop a
    (initial ++ rems.take (t - initial.length)).take t

/-- The serialized context block of one hit:
`[[META]] meta` line plus `[[TEXT]] text` line. -/
def block (h : Hit) : String :=
  let p := h.payload
  let sec_no := pyOr p.section_number_norm p.section_number
  let meta := joinWith " | " (([p.doc_title,
    if truthy sec_no then some ("Section " ++ getStr sec_no) else none,
    p.section_heading, p.breadcrumbs].filterMap
      (fun o => if truthy o then o else none)))
  "[[META]] " ++ meta ++ "\n[[TEXT]] " ++ getStr p.search_text ++ "\n"

/-- Place a block into the bucket of its layer (the `if/elif/else` of
`split_context_by_layer`; `detect_layer` always yields L1, L2 or L3, and the
`else` branch collects L1). -/
def addBlock (h : Hit) (r : List String × List String × List String) :
    List String × List String × List String :=
  match detect_layer h.payload with
  | "L3" => (r.1, r.2.1, block h :: r.2.2)
  | "L2" => (r.1, block h :: r.2.1, r.2.2)
  | _ => (block h :: r.1, r.2.1, r.2.2)

/-- The serialization loop of `split_context_by_layer`: stop (for every layer)
as soon as one block would push the running character total past the budget. -/
def splitGo (max_chars : ℕ) : List Hit → ℕ → List String × List String × List String
  | [], _ => ([], [], [])
  | h :: t, total =>
    if max_chars < total + (block h).length then ([], [], [])
    else addBlock h (splitGo max_chars t (total + (block h).length))

/-- Embeds `split_context_by_layer`: the three bucket lists, starting from a zero
character total. -/
def splitBlocks (hits : List Hit) (max_chars : ℕ) :
    List String × List String × List String :=
  splitGo max_chars hits 0

/-- Embeds `split_context_by_layer`'s returned triple of `"\n---\n"`-joined buckets. -/
def split_context_by_layer (hits : List Hit) (max_chars : ℕ) :
    String × String × String :=
  let r := splitBlocks hits max_chars
  (joinWith "\n---\n" r.1, joinWith "\n---\n" r.2.1, joinWith "\n---\n" r.2.2)

/-- Specification-side bucketing with no budget: every hit's block lands in
its layer's bucket. -/
def allBuckets : List Hit → List String × List String × List String
  | [] => ([], [], [])
  | h :: t => addBlock h (allBuckets t)

/-- Total character length of the blocks of a list of hits. -/
def blocksLen (hits : List Hit) : ℕ := (hits.map (fun h => (block h).length)).sum

/-- Total character length of the blocks accepted into the three buckets. -/
def bucketsCharLen (r : List String × List String × List String) : ℕ :=
  ((r.1 ++ r.2.1 ++ r.2.2).map String.length).sum

/-- Specification-side reading of the explicit-tier resolution: the first of
`layer`, `level`, `chunk_level` holding a valid tier value. -/
def explicitTier (p : Payload) : Option String :=
  (p.layer.bind tierOf).orElse fun _ =>
    (p.level.bind tierOf).orElse fun _ => p.chunk_level.bind tierOf

/-- Specification-side structural heuristic: clause/sub-section marker ⇒ L3,
section identifier alone ⇒ L2, otherwise L1. -/
def structuralLayer (p : Payload) : String :=
  if truthy p.clause || truthy p.sub_section
      || hasParenWord (getStr p.search_text).toList then "L3"
  else if truthy p.section_number || truthy p.section_number_norm then "L2"
  else "L1"

/-- Embeds `rewrite_queries`, with the model interaction abstracted to its parsed
outcome: `some qs` when the call succeeded and the content parsed as a JSON
list of strings (then the first five are returned), `none` on every failure
path (then the original query is the single fallback element). -/
def rewrite_queries (parsed : Option (List String)) (user_query : String) :
    List String :=
  match parsed with
  | some qs => qs.take 5
  | none => [user_query]

/-- Embeds `Source.from_hit`. -/
def source_from_hit (h : Hit) : Source :=
  let p := h.payload
  let snippet := pyTake (pyStrip (getStr p.search_text)) 600
  { score := h.score
    layer := detect_layer p
    doc_title := p.doc_title
    section_number := pyOr p.section_number_norm p.section_number
    section_heading := p.section_heading
    breadcrumbs := p.breadcrumbs
    snippet := if snippet = "" then none else some snippet }

/-- The canned terminal answer of both no-context paths. -/
def noContextMsg : String := "No directly relevant section found in the available Acts."

/-- Environment of one `answer_query` run: the outcome of every external
effect. `rerankRows` is the parsed `(score, id)` list of the reranker call
(`none` for a failed call or unparsable content); `valAnswer` is total because
`validate_citations` catches its own exceptions. -/
structure Env : Type where
  rewriteParsed : Option (List String)
  embedOk : Bool
  searchHits : Option (List Hit)
  rerankRows : Option (List (ℚ × ℤ))
  genAnswer : Option String
  valAnswer : String
deriving DecidableEq

/-- The threshold filter of the model-reranker branch: keep pairs whose hit
has raw vector score at least `threshold` (the reranker score is not read). -/
def llm_filter (threshold : ℚ) (l : List (ℚ × Hit)) : List (ℚ × Hit) :=
  l.filter (fun p => threshold ≤ p.2.score)

/-- The threshold filter of the heuristic branch: raw vector score only. -/
def heur_filter (threshold : ℚ) (l : List Hit) : List Hit :=
  l.filter (fun h => threshold ≤ h.score)

/-- The candidate-selection stage of `answer_query`: a truthy (non-`None`,
non-empty) model rerank is threshold-filtered (falling back to the unfiltered
rerank when the filter empties it) and blended; otherwise the heuristic
ordering is threshold-filtered with fallback to its unfiltered top-k. -/
def final_hits_stage (rows : Option (List (ℚ × ℤ))) (query : String)
    (wide_hits : List Hit) (top_k : ℤ) (threshold : ℚ) : List Hit :=
  match llm_rerank rows wide_hits with
  | some (r :: rs) =>
    weighted_blend
      (if llm_filter threshold (r :: rs) = [] then r :: rs
       else llm_filter threshold (r :: rs)) top_k
  | _ =>
    if heur_filter threshold (heuristic_rerank query wide_hits) = [] then
      (heuristic_rerank query wide_hits).take top_k.toNat
    else (heur_filter threshold (heuristic_rerank query wide_hits)).take top_k.toNat

/-- Embeds `answer_query` of the single-collection pipeline. -/
def answer_query (env : Env) (query : String) (top_k : ℤ) (threshold : ℚ)
    (do_validate : Bool) : Except PipeError AnswerResponse :=
  let nq := pyStrip query
  if nq = "" then .error (.invalidInput "Query must not be empty.")
  else if top_k ≤ 0 then .error (.invalidInput "top_k must be greater than zero.")
  else if ¬(0 ≤ threshold ∧ threshold ≤ 1) then
    .error (.invalidInput "threshold must be between 0 and 1.")
  else
    let expanded := rewrite_queries env.rewriteParsed nq
    if ¬env.embedOk then .error (.runtimeError "Failed to create embedding for query.")
    else
      match env.searchHits with
      | none => .error (.runtimeError "Vector search against Qdrant failed.")
      | some wide_hits =>
        let final := final_hits_stage env.rerankRows nq wide_hits top_k threshold
        if final = [] then
          .ok { query := nq, answer := noContextMsg, expanded_queries := expanded,
                sources := (wide_hits.take top_k.toNat).map source_from_hit,
                validation := none }
        else
          let ctx := split_context_by_layer final 7500
          if ctx.1 = "" ∧ ctx.2.1 = "" ∧ ctx.2.2 = "" then
            .ok { query := nq, answer := noContextMsg, expanded_queries := expanded,
                  sources := final.map source_from_hit, validation := none }
          else
            match env.genAnswer with
            | none => .error .modelError
            | some ans =>
              .ok { query := nq, answer := ans, expanded_queries := expanded,
                    sources := final.map source_from_hit,
                    validation := if do_validate then some env.valAnswer else none }

end AnswerLlm

namespace AnswerLlm2

/-- Payload dictionary of a hit from `answer_llm2.py`, one optional field per
key the module reads. -/
structure Payload : Type where
  layer : Option String := none
  level : Option String := none
  chunk_level : Option String := none
  sub_section : Option String := none
  section_number : Option String := none
  act_title : Option String := none
  context_path : Option String := none
  heading : Option String := none
  unit_id : Option String := none
  page_content : Option String := none
  content : Option String := none
deriving DecidableEq

/-- Embeds `Hit` dataclass of the multi-collection variant: score, source collection
name, payload. -/
structure Hit : Type where
  score : ℚ
  collection : String
  payload : Payload
deriving DecidableEq

/-- Embeds `Source` pydantic model of the multi-collection variant. -/
structure Source : Type where
  collection : String
  score : ℚ
  layer : String
  act_title : Option String := none
  context_path : Option String := none
  heading : Option String := none
  unit_id : Option String := none
  snippet : Option String := none
deriving DecidableEq

/-- Embeds `AnswerResponse` pydantic model of the multi-collection pipeline. -/
structure AnswerResponse : Type where
  query : String
  answer : String
  expanded_queries : List String
  sources : List Source
  validation : Option String := none
deriving DecidableEq

/-- Embeds `collection.split("_")[-1]`: the characters after the last underscore
(the whole string when it has none). -/
def lastSeg (s : String) : String :=
  String.mk ((s.toList.reverse.takeWhile (fun c => c != '_')).reverse)

/-- Membership of `{"L1","L2","L3"}`. -/
def validTier (s : String) : Bool := s == "L1" || s == "L2" || s == "L3"

/-- Embeds `_resolve_layer`: first valid explicit tier field among `layer`, `level`,
`chunk_level` (requiring a non-blank string value — which coincides with
`AnswerLlm.tierOf` succeeding, since a blank value never normalises to a
tier); else a valid upper-cased last underscore segment of a truthy collection
name; else `sub_section` ⇒ L3, `section_number` ⇒ L2, default L1. -/
def resolve_layer (p : Payload) (collection : String) : String :=
  match p.layer.bind AnswerLlm.tierOf with
  | some t => t
  | none =>
    match p.level.bind AnswerLlm.tierOf with
    | some t => t
    | none =>
      match p.chunk_level.bind AnswerLlm.tierOf with
      | some t => t
      | none =>
        if collection ≠ "" ∧ validTier (pyUpper (lastSeg collection)) then
          pyUpper (lastSeg collection)
        else if truthy p.sub_section then "L3"
        else if truthy p.section_number then "L2"
        else "L1"

/-- Embeds `_hit_to_source`. -/
def hit_to_source (h : Hit) : Source :=
  let p := h.payload
  let snippet0 := pyStrip (getStr (pyOr p.page_content p.content))
  let snippet := if snippet0 != "" then pyTake snippet0 600 else snippet0
  { collection := h.collection
    score := h.score
    layer := resolve_layer p h.collection
    act_title := p.act_title
    context_path := p.context_path
    heading := p.heading
    unit_id := p.unit_id
    snippet := if snippet = "" then none else some snippet }

/-- The layer tag `p.get("layer") or h.collection.split("_")[-1].upper()` that
`split_context_by_layer` buckets on — the raw payload value, not normalised. -/
def layerTag (h : Hit) : String :=
  if truthy h.payload.layer then getStr h.payload.layer
  else pyUpper (lastSeg h.collection)

/-- The serialized block of one hit in the multi-collection variant. -/
def block (h : Hit) : String :=
  let p := h.payload
  "[[META]] " ++ getStr p.act_title ++ " | " ++ getStr p.context_path ++ " | "
    ++ getStr p.heading ++ "\n[[TEXT]] "
    ++ getStr (pyOr p.page_content p.content) ++ "\n"

/-- Bucket placement of `split_context_by_layer`: a tag other than exactly
`L1`/`L2`/`L3` goes in no bucket (the block is dropped). -/
def addBlock (h : Hit) (r : List String × List String × List String) :
    List String × List String × List String :=
  match layerTag h with
  | "L1" => (block h :: r.1, r.2.1, r.2.2)
  | "L2" => (r.1, block h :: r.2.1, r.2.2)
  | "L3" => (r.1, r.2.1, block h :: r.2.2)
  | _ => r

/-- The serialization loop: stop for every layer at the first block that would
exceed the budget; the character total grows by every surviving block's
length, bucketed or not. -/
def splitGo (max_chars : ℕ) : List Hit → ℕ → List String × List String × List String
  | [], _ => ([], [], [])
  | h :: t, total =>
    if max_chars < total + (block h).length then ([], [], [])
    else addBlock h (splitGo max_chars t (total + (block h).length))

/-- Embeds `split_context_by_layer`'s bucket lists, from a zero character total. -/
def splitBlocks (hits : List Hit) (max_chars : ℕ) :
    List String × List String × List String :=
  splitGo max_chars hits 0

/-- Embeds `split_context_by_layer`'s returned triple of joined buckets. -/
def split_context_by_layer (hits : List Hit) (max_chars : ℕ) :
    String × String × String :=
  let r := splitBlocks hits max_chars
  (joinWith "\n---\n" r.1, joinWith "\n---\n" r.2.1, joinWith "\n---\n" r.2.2)

/-- Specification-side bucketing with no budget. -/
def allBuckets : List Hit → List String × List String × List String
  | [] => ([], [], [])
  | h :: t => addBlock h (allBuckets t)

/-- Total character length of the blocks of a list of hits — every block
counts, also those `addBlock` drops. -/
def blocksLen (hits : List Hit) : ℕ := (hits.map (fun h => (block h).length)).sum

/-- Total character length of the blocks accepted into the three buckets. -/
def bucketsCharLen (r : List String × List String × List String) : ℕ :=
  ((r.1 ++ r.2.1 ++ r.2.2).map String.length).sum

/-- Number of blocks accepted into the three buckets. -/
def bucketsCount (r : List String × List String × List String) : ℕ :=
  r.1.length + r.2.1.length + r.2.2.length

/-- Specification-side reading of the explicit-tier resolution of
`_resolve_layer`. -/
def explicitTier (p : Payload) : Option String :=
  (p.layer.bind AnswerLlm.tierOf).orElse fun _ =>
    (p.level.bind AnswerLlm.tierOf).orElse fun _ => p.chunk_level.bind AnswerLlm.tierOf

/-- Specification-side reading of the collection-name rule: the upper-cased
last underscore-separated segment of a truthy collection name, when a tier. -/
def suffixTier (collection : String) : Option String :=
  if collection ≠ "" ∧ validTier (pyUpper (lastSeg collection)) then
    some (pyUpper (lastSeg collection))
  else none

/-- Specification-side structural heuristic of `_resolve_layer`:
sub-section marker ⇒ L3, section identifier alone ⇒ L2, otherwise L1. -/
def structuralLayer (p : Payload) : String :=
  if truthy p.sub_section then "L3"
  else if truthy p.section_number then "L2"
  else "L1"

/-- Embeds `rewrite_queries` of the multi-collection variant: the parsed JSON is
returned unchecked and uncapped; every failure path yields the original
query as a one-element list. -/
def rewrite_queries (parsed : Option (List String)) (user_query : String) :
    List String :=
  match parsed with
  | some qs => qs
  | none => [user_query]

/-- Embeds `llm_rerank` of the multi-collection variant (candidate cap 20). -/
def llm_rerank (rows : Option (List (ℚ × ℤ))) (hits : List Hit) :
    Option (List (ℚ × Hit)) :=
  match hits with
  | [] => none
  | _ =>
    match rows with
    | none => none
    | some rs =>
      some (sortByScoreDesc (rs.filterMap (fun si =>
        if si.2 < 0 then none
        else ((hits.take 20).get? si.2.toNat).map (fun h => (si.1, h)))))

/-- Environment of one multi-collection `answer_query` run. `searchHits` is
the merged result of `multi_search` (which swallows per-collection errors);
`fallbackAnswer` is the outcome of `generate_answer_fallback`. -/
structure Env : Type where
  rewriteParsed : Option (List String)
  embedOk : Bool
  searchHits : Option (List Hit)
  rerankRows : Option (List (ℚ × ℤ))
  genAnswer : Option String
  fallbackAnswer : Option String
  valAnswer : String
deriving DecidableEq

/-- The ordering stage: a truthy model rerank gives the hit order; otherwise
the merged vector-score order of `wide_hits` is kept unchanged (this variant
has no heuristic reranker). -/
def ordered_stage (rows : Option (List (ℚ × ℤ))) (wide_hits : List Hit) :
    List Hit :=
  match llm_rerank rows wide_hits with
  | some (r :: rs) => (r :: rs).map Prod.snd
  | _ => wide_hits

/-- The threshold filter: raw vector score only. -/
def score_filter (threshold : ℚ) (l : List Hit) : List Hit :=
  l.filter (fun h => threshold ≤ h.score)

/-- Embeds `top_hits`: threshold-filtered order truncated to `top_k`, falling back to
the unfiltered order's top-k when the filter empties it. -/
def top_hits_stage (rows : Option (List (ℚ × ℤ))) (wide_hits : List Hit)
    (top_k : ℤ) (threshold : ℚ) : List Hit :=
  if score_filter threshold (ordered_stage rows wide_hits) = [] then
    (ordered_stage rows wide_hits).take top_k.toNat
  else (score_filter threshold (ordered_stage rows wide_hits)).take top_k.toNat

/-- Embeds `answer_query` of the multi-collection pipeline. -/
def answer_query (env : Env) (query : String) (top_k : ℤ) (threshold : ℚ)
    (validate : Bool) : Except PipeError AnswerResponse :=
  let nq := pyStrip query
  if nq = "" then .error (.invalidInput "Query must not be empty.")
  else if top_k ≤ 0 then .error (.invalidInput "top_k must be a positive integer.")
  else if ¬(0 ≤ threshold ∧ threshold ≤ 1) then
    .error (.invalidInput "threshold must be between 0 and 1.")
  else
    let expanded := rewrite_queries env.rewriteParsed nq
    if ¬env.embedOk then
      .error (.runtimeError "Failed to create embedding for the query.")
    else
      match env.searchHits with
      | none => .error (.runtimeError "Vector search against Qdrant failed.")
      | some wide_hits =>
        match top_hits_stage env.rerankRows wide_hits top_k threshold with
        | [] =>
          match env.fallbackAnswer with
          | none => .error .modelError
          | some ans =>
            .ok { query := nq, answer := ans, expanded_queries := expanded,
                  sources := [], validation := none }
        | t0 :: ts =>
          -- the three buckets of `split_context_by_layer(top_hits)` (budget
          -- 8000) are consumed only by the oracled generation/validation calls
          let _ctx := split_context_by_layer (t0 :: ts) 8000
          match env.genAnswer with
          | none =>
            .error (.runtimeError "Failed to generate answer from the language model.")
          | some ans =>
            .ok { query := nq, answer := ans, expanded_queries := expanded,
                  sources := (t0 :: ts).map hit_to_source,
                  validation := if validate then some env.valAnswer else none }

end AnswerLlm2

namespace AnswerLlm2

/-- A concrete hit whose layer tag resolves to `COL`: no bucket accepts its
block. Its 30-character text makes the block 56 characters long. -/
def strayHit : Hit := ⟨1, "col", { page_content := some "aaaaaaaaaaaaaaaaaaaaaaaaaaaaaa" }⟩

/-- A concrete well-tagged `L2` hit with a 27-character block. -/
def smallL2Hit : Hit := ⟨1, "acts_L2", { page_content := some "x" }⟩

end AnswerLlm2

deriving instance DecidableEq for Except

theorem pyround_le (q : ℚ) : (pyround q : ℚ) ≤ q + 1/2 := by
  unfold Py.pyround
  split
  · rename_i h
    split
    · have := Int.floor_le q
      linarith
    · push_cast
      linarith
  · rw [round_eq]
    exact_mod_cast Int.floor_le (q + 1/2)

theorem max_zero_pyround_le (x b : ℚ) (hb : 0 ≤ b + 1/2)
    (hx : x ≤ b) : ((max 0 (pyround x) : ℤ) : ℚ) ≤ b + 1/2 := by
  rcases le_or_lt (pyround x) 0 with h | h
  · rw [max_eq_left h]
    exact_mod_cast hb
  · rw [max_eq_right h.le]
    calc ((pyround x : ℤ) : ℚ) ≤ x + 1/2 := pyround_le x
    _ ≤ b + 1/2 := by linarith

/-- Claim C4: for every `top_k > 0` the per-layer targets of `weighted_blend`
— `l1n = round(top_k * 0.15)`, `l2n = round(top_k * 0.55)`, `l3n` the
remainder — are non-negative and sum exactly to `top_k`.  Stated both for the
exact-rational products (the `blend_l1n`/`blend_l2n`/`blend_l3n` the embedding
uses) and robustly for any products `x1`, `x2` within `top_k / 2^40` of the
exact ones, which covers every faithful IEEE-754 evaluation of
`top_k * 0.15` and `top_k * 0.55` together with CPython's round-half-even. -/
theorem blend_layer_counts_sum (t : ℤ) (ht : 1 ≤ t) :
    (AnswerLlm.blend_l1n t + AnswerLlm.blend_l2n t + AnswerLlm.blend_l3n t = t
      ∧ 0 ≤ AnswerLlm.blend_l1n t ∧ 0 ≤ AnswerLlm.blend_l2n t
      ∧ 0 ≤ AnswerLlm.blend_l3n t)
    ∧ ∀ x1 x2 : ℚ,
        |x1 - t * AnswerLlm.weightL1| ≤ (t : ℚ) / 2 ^ 40 →
        |x2 - t * AnswerLlm.weightL2| ≤ (t : ℚ) / 2 ^ 40 →
        max 0 (pyround x1) + max 0 (pyround x2)
            + max 0 (t - max 0 (pyround x1) - max 0 (pyround x2)) = t
          ∧ 0 ≤ max 0 (pyround x1) ∧ 0 ≤ max 0 (pyround x2)
          ∧ 0 ≤ max 0 (t - max 0 (pyround x1) - max 0 (pyround x2)) := by
  have key : ∀ x1 x2 : ℚ,
      |x1 - t * AnswerLlm.weightL1| ≤ (t : ℚ) / 2 ^ 40 →
      |x2 - t * AnswerLlm.weightL2| ≤ (t : ℚ) / 2 ^ 40 →
      max 0 (pyround x1) + max 0 (pyround x2)
          + max 0 (t - max 0 (pyround x1) - max 0 (pyround x2)) = t
        ∧ 0 ≤ max 0 (pyround x1) ∧ 0 ≤ max 0 (pyround x2)
        ∧ 0 ≤ max 0 (t - max 0 (pyround x1) - max 0 (pyround x2)) := by
    intro x1 x2 h1 h2
    have ht' : (1 : ℚ) ≤ (t : ℚ) := by exact_mod_cast ht
    rw [AnswerLlm.weightL1] at h1
    rw [AnswerLlm.weightL2] at h2
    obtain ⟨h1l, h1r⟩ := abs_le.mp h1
    obtain ⟨h2l, h2r⟩ := abs_le.mp h2
    set a := max 0 (pyround x1) with ha
    set b := max 0 (pyround x2) with hb
    have haq : ((a : ℤ) : ℚ) ≤ (t : ℚ) * (15/100) + (t : ℚ) / 2 ^ 40 + 1/2 := by
      have := max_zero_pyround_le x1
        ((t : ℚ) * (15/100) + (t : ℚ) / 2 ^ 40) (by nlinarith) (by linarith)
      linarith
    have hbq : ((b : ℤ) : ℚ) ≤ (t : ℚ) * (55/100) + (t : ℚ) / 2 ^ 40 + 1/2 := by
      have := max_zero_pyround_le x2
        ((t : ℚ) * (55/100) + (t : ℚ) / 2 ^ 40) (by nlinarith) (by linarith)
      linarith
    have hsum : ((a : ℤ) : ℚ) + ((b : ℤ) : ℚ) < (t : ℚ) + 1 := by nlinarith
    have hab : a + b ≤ t := by
      have hq : ((a + b : ℤ) : ℚ) < ((t + 1 : ℤ) : ℚ) := by push_cast; linarith
      have hz : a + b < t + 1 := by exact_mod_cast hq
      omega
    have ha0 : 0 ≤ a := le_max_left 0 _
    have hb0 : 0 ≤ b := le_max_left 0 _
    have hc : max 0 (t - a - b) = t - a - b := max_eq_right (by omega)
    refine ⟨by omega, ha0, hb0, by omega⟩
  constructor
  · have h1 : |(t : ℚ) * AnswerLlm.weightL1 - t * AnswerLlm.weightL1| ≤ (t : ℚ) / 2 ^ 40 := by
      have ht' : (1 : ℚ) ≤ (t : ℚ) := by exact_mod_cast ht
      simp only [sub_self, abs_zero]
      positivity
    have h2 : |(t : ℚ) * AnswerLlm.weightL2 - t * AnswerLlm.weightL2| ≤ (t : ℚ) / 2 ^ 40 := by
      have ht' : (1 : ℚ) ≤ (t : ℚ) := by exact_mod_cast ht
      simp only [sub_self, abs_zero]
      positivity
    have := key _ _ h1 h2
    simpa [AnswerLlm.blend_l1n, AnswerLlm.blend_l2n, AnswerLlm.blend_l3n] using this
  · exact key

theorem blend_layer_counts_sum_witness :
    AnswerLlm.blend_l1n 5 + AnswerLlm.blend_l2n 5 + AnswerLlm.blend_l3n 5 = 5
      ∧ 0 ≤ AnswerLlm.blend_l1n 5 ∧ 0 ≤ AnswerLlm.blend_l2n 5
      ∧ 0 ≤ AnswerLlm.blend_l3n 5 :=
  (blend_layer_counts_sum 5 (by decide)).1

/-- Claim C8: the heuristic reranker's combined score
`alpha * vec_norm + beta * overlap + gamma * pboost` with the default weights
`alpha = 0.65`, `beta = 0.25`, `gamma = 0.10` is monotonically non-decreasing
in each of the three signals, the other two held fixed. -/
theorem combined_score_monotone (v v' o o' p p' : ℚ)
    (hv : v ≤ v') (ho : o ≤ o') (hp : p ≤ p') :
    AnswerLlm.combinedScore AnswerLlm.alphaDefault AnswerLlm.betaDefault
        AnswerLlm.gammaDefault v o p
      ≤ AnswerLlm.combinedScore AnswerLlm.alphaDefault AnswerLlm.betaDefault
        AnswerLlm.gammaDefault v' o p
    ∧ AnswerLlm.combinedScore AnswerLlm.alphaDefault AnswerLlm.betaDefault
        AnswerLlm.gammaDefault v o p
      ≤ AnswerLlm.combinedScore AnswerLlm.alphaDefault AnswerLlm.betaDefault
        AnswerLlm.gammaDefault v o' p
    ∧ AnswerLlm.combinedScore AnswerLlm.alphaDefault AnswerLlm.betaDefault
        AnswerLlm.gammaDefault v o p
      ≤ AnswerLlm.combinedScore AnswerLlm.alphaDefault AnswerLlm.betaDefault
        AnswerLlm.gammaDefault v o p' := by
  unfold AnswerLlm.combinedScore AnswerLlm.alphaDefault AnswerLlm.betaDefault
    AnswerLlm.gammaDefault
  refine ⟨by nlinarith, by nlinarith, by nlinarith⟩

theorem combined_score_monotone_witness :
    AnswerLlm.combinedScore AnswerLlm.alphaDefault AnswerLlm.betaDefault
        AnswerLlm.gammaDefault 1 0 0
      ≤ AnswerLlm.combinedScore AnswerLlm.alphaDefault AnswerLlm.betaDefault
        AnswerLlm.gammaDefault 2 0 0
    ∧ AnswerLlm.combinedScore AnswerLlm.alphaDefault AnswerLlm.betaDefault
        AnswerLlm.gammaDefault 1 0 0
      ≤ AnswerLlm.combinedScore AnswerLlm.alphaDefault AnswerLlm.betaDefault
        AnswerLlm.gammaDefault 1 1 0
    ∧ AnswerLlm.combinedScore AnswerLlm.alphaDefault AnswerLlm.betaDefault
        AnswerLlm.gammaDefault 1 0 0
      ≤ AnswerLlm.combinedScore AnswerLlm.alphaDefault AnswerLlm.betaDefault
        AnswerLlm.gammaDefault 1 0 1 :=
  combined_score_monotone 1 2 0 1 0 1 (by decide) (by decide) (by decide)

/-- Claim C9: after either reranker, the threshold filter compares the hit's
raw vector-similarity score (`hit.score`) against the threshold, never the
reranker-produced score: replacing every model-reranker score leaves the set
of surviving hits unchanged, the survivors of the model branch are exactly
the hits clearing the threshold, membership in the heuristic branch's
filtered list depends only on raw score and prior membership, and the
multi-collection filter reads the raw score alone. -/
theorem threshold_filter_uses_raw_score :
    (∀ (th : ℚ) (l : List (ℚ × AnswerLlm.Hit)) (f : ℚ × AnswerLlm.Hit → ℚ),
        (AnswerLlm.llm_filter th (l.map (fun pr => (f pr, pr.2)))).map Prod.snd
          = (AnswerLlm.llm_filter th l).map Prod.snd)
    ∧ (∀ (th : ℚ) (l : List (ℚ × AnswerLlm.Hit)),
        (AnswerLlm.llm_filter th l).map Prod.snd
          = (l.map Prod.snd).filter (fun h => th ≤ h.score))
    ∧ (∀ (th : ℚ) (l : List AnswerLlm.Hit) (h : AnswerLlm.Hit),
        h ∈ AnswerLlm.heur_filter th l ↔ h ∈ l ∧ th ≤ h.score)
    ∧ (∀ (th : ℚ) (l : List AnswerLlm2.Hit),
        AnswerLlm2.score_filter th l = l.filter (fun h => th ≤ h.score)) := by
  refine ⟨fun th l f => ?_, fun th l => ?_, fun th l h => ?_, fun th l => rfl⟩
  · induction l with
    | nil => rfl
    | cons x xs ih =>
      simp only [AnswerLlm.llm_filter, List.map_cons, List.filter_cons] at ih ⊢
      by_cases hx : th ≤ x.2.score <;> simp [hx, ih]
  · induction l with
    | nil => rfl
    | cons x xs ih =>
      simp only [AnswerLlm.llm_filter, List.map_cons, List.filter_cons] at ih ⊢
      by_cases hx : th ≤ x.2.score <;> simp [hx, ih]
  · simp [AnswerLlm.heur_filter, List.mem_filter]

/-- Claim C7 counterexample: with no explicit tier field, the collection name
`acts_XL3` carries the valid tier suffix `L3`, yet `_resolve_layer` returns
`L1` — the code only honours the *last underscore-separated segment* (here
`XL3`, invalid), not a suffix. -/
theorem layer_resolution_counterexample :
    AnswerLlm2.resolve_layer ({} : AnswerLlm2.Payload) "acts_XL3" = "L1"
      ∧ suffixOf "L3" "acts_XL3" = true
      ∧ AnswerLlm2.explicitTier ({} : AnswerLlm2.Payload) = none
      ∧ ("L1" : String) ≠ "L3" := by decide

/-- Claim C7 (amended): layer classification follows the resolution order
exactly, with the collection rule being "the upper-cased last
underscore-separated segment equals L1/L2/L3" rather than an arbitrary
suffix: `detect_layer` is explicit-tier-else-structural-heuristic, and
`_resolve_layer` is explicit-tier, else collection segment, else
sub-section ⇒ L3 / section ⇒ L2 / default L1; both are pure functions of
their arguments. -/
theorem layer_resolution_order :
    (∀ p : AnswerLlm.Payload,
        AnswerLlm.detect_layer p
          = (AnswerLlm.explicitTier p).getD (AnswerLlm.structuralLayer p))
    ∧ (∀ (p : AnswerLlm2.Payload) (c : String),
        AnswerLlm2.resolve_layer p c
          = ((AnswerLlm2.explicitTier p).orElse
              (fun _ => AnswerLlm2.suffixTier c)).getD
            (AnswerLlm2.structuralLayer p)) := by
  constructor
  · intro p
    unfold AnswerLlm.detect_layer AnswerLlm.explicitTier AnswerLlm.structuralLayer
    cases p.layer.bind AnswerLlm.tierOf <;>
      cases p.level.bind AnswerLlm.tierOf <;>
        cases p.chunk_level.bind AnswerLlm.tierOf <;> rfl
  · intro p c
    unfold AnswerLlm2.resolve_layer AnswerLlm2.explicitTier
      AnswerLlm2.structuralLayer AnswerLlm2.suffixTier
    cases p.layer.bind AnswerLlm.tierOf with
    | some t => rfl
    | none =>
      cases p.level.bind AnswerLlm.tierOf with
      | some t => rfl
      | none =>
        cases p.chunk_level.bind AnswerLlm.tierOf with
        | some t => rfl
        | none =>
          by_cases hc : c ≠ "" ∧ AnswerLlm2.validTier (pyUpper (AnswerLlm2.lastSeg c)) <;>
            simp [hc, Option.orElse]

/-- Claim C6 counterexample: a successfully parsed empty JSON list is returned
as-is, so `rewrite_queries` yields the empty list — not a list of 1–5
strings — and the returned `AnswerResponse` carries an empty
`expanded_queries`; the multi-collection variant also returns a parsed list
of six strings uncapped. -/
theorem expanded_queries_counterexample :
    AnswerLlm.rewrite_queries (some []) "q" = []
      ∧ AnswerLlm2.rewrite_queries (some ["a", "b", "c", "d", "e", "f"]) "q"
          = ["a", "b", "c", "d", "e", "f"]
      ∧ AnswerLlm.answer_query ⟨some [], true, some [], none, none, "V"⟩ "q" 5 1 true
        = Except.ok
            { query := "q", answer := AnswerLlm.noContextMsg,
              expanded_queries := [], sources := [], validation := none } := by decide

/-- Claim C6 (amended): on any rewriter failure both variants return exactly
the single-element list holding the original query; on a successful parse the
single-collection variant returns the first at-most-five strings (non-empty
whenever the parsed list is non-empty) and the multi-collection variant
returns the parsed list unchanged — so `expanded_queries` can only be empty
when the model's output parsed as the empty list. -/
theorem expanded_queries_fallback (o : Option (List String)) (q : String)
    (xs : List String) (hxs : xs ≠ []) :
    AnswerLlm.rewrite_queries none q = [q]
      ∧ AnswerLlm2.rewrite_queries none q = [q]
      ∧ AnswerLlm.rewrite_queries (some xs) q ≠ []
      ∧ (AnswerLlm.rewrite_queries (some xs) q).length ≤ 5
      ∧ AnswerLlm2.rewrite_queries (some xs) q = xs
      ∧ (AnswerLlm.rewrite_queries o q = [] → o = some [])
      ∧ (AnswerLlm2.rewrite_queries o q = [] → o = some []) := by
  refine ⟨rfl, rfl, ?_, List.length_take_le 5 xs, rfl, ?_, ?_⟩
  · cases xs with
    | nil => exact absurd rfl hxs
    | cons x xs => simp [AnswerLlm.rewrite_queries]
  · cases o with
    | none => intro h; simp [AnswerLlm.rewrite_queries] at h
    | some ys =>
      intro h
      simp only [AnswerLlm.rewrite_queries, List.take_eq_nil_iff] at h
      rcases h with h | h
      · exact absurd h (by decide)
      · simp [h]
  · cases o with
    | none => intro h; simp [AnswerLlm2.rewrite_queries] at h
    | some ys => intro h; simp [AnswerLlm2.rewrite_queries] at h; simp [h]

theorem expanded_queries_fallback_witness :
    AnswerLlm.rewrite_queries none "q" = ["q"]
      ∧ AnswerLlm2.rewrite_queries none "q" = ["q"]
      ∧ AnswerLlm.rewrite_queries (some ["x"]) "q" ≠ []
      ∧ (AnswerLlm.rewrite_queries (some ["x"]) "q").length ≤ 5
      ∧ AnswerLlm2.rewrite_queries (some ["x"]) "q" = ["x"]
      ∧ (AnswerLlm.rewrite_queries (some ["x"]) "q" = [] → some ["x"] = some [])
      ∧ (AnswerLlm2.rewrite_queries (some ["x"]) "q" = [] → some ["x"] = some []) :=
  expanded_queries_fallback (some ["x"]) "q" ["x"] (by decide)

theorem split_go_spec1 (mc : ℕ) (hits : List AnswerLlm.Hit) : ∀ total : ℕ,
    ∃ n, n ≤ hits.length ∧
      AnswerLlm.splitGo mc hits total = AnswerLlm.allBuckets (hits.take n) ∧
      (n = 0 ∨ total + AnswerLlm.blocksLen (hits.take n) ≤ mc) ∧
      (n = hits.length ∨ mc < total + AnswerLlm.blocksLen (hits.take (n + 1))) := by
  induction hits with
  | nil =>
    intro total
    exact ⟨0, Nat.le_refl 0, rfl, Or.inl rfl, Or.inl rfl⟩
  | cons h t ih =>
    intro total
    by_cases hb : mc < total + (AnswerLlm.block h).length
    · refine ⟨0, Nat.zero_le _, ?_, Or.inl rfl, Or.inr ?_⟩
      · simp [AnswerLlm.splitGo, hb, AnswerLlm.allBuckets]
      · simp only [List.take_succ_cons, List.take_zero, AnswerLlm.blocksLen,
          List.map_cons, List.map_nil, List.sum_cons, List.sum_nil]
        omega
    · push_neg at hb
      obtain ⟨n, hn, heq, hbud, hstop⟩ := ih (total + (AnswerLlm.block h).length)
      refine ⟨n + 1, Nat.succ_le_succ hn, ?_, Or.inr ?_, ?_⟩
      · simp only [AnswerLlm.splitGo, List.take_succ_cons, AnswerLlm.allBuckets]
        rw [if_neg (not_lt.mpr hb), heq]
      · rcases hbud with h0 | hle
        · subst h0
          simp only [List.take_succ_cons, List.take_zero, AnswerLlm.blocksLen,
            List.map_cons, List.map_nil, List.sum_cons, List.sum_nil]
          omega
        · simp only [AnswerLlm.blocksLen] at hle
          simp only [List.take_succ_cons, AnswerLlm.blocksLen, List.map_cons,
            List.sum_cons]
          omega
      · rcases hstop with hlen | hgt
        · exact Or.inl (by simp [hlen])
        · refine Or.inr ?_
          simp only [AnswerLlm.blocksLen] at hgt
          simp only [List.take_succ_cons, AnswerLlm.blocksLen, List.map_cons,
            List.sum_cons]
          omega

theorem split_go_spec2 (mc : ℕ) (hits : List AnswerLlm2.Hit) : ∀ total : ℕ,
    ∃ n, n ≤ hits.length ∧
      AnswerLlm2.splitGo mc hits total = AnswerLlm2.allBuckets (hits.take n) ∧
      (n = 0 ∨ total + AnswerLlm2.blocksLen (hits.take n) ≤ mc) ∧
      (n = hits.length ∨ mc < total + AnswerLlm2.blocksLen (hits.take (n + 1))) := by
  induction hits with
  | nil =>
    intro total
    exact ⟨0, Nat.le_refl 0, rfl, Or.inl rfl, Or.inl rfl⟩
  | cons h t ih =>
    intro total
    by_cases hb : mc < total + (AnswerLlm2.block h).length
    · refine ⟨0, Nat.zero_le _, ?_, Or.inl rfl, Or.inr ?_⟩
      · simp [AnswerLlm2.splitGo, hb, AnswerLlm2.allBuckets]
      · simp only [List.take_succ_cons, List.take_zero, AnswerLlm2.blocksLen,
          List.map_cons, List.map_nil, List.sum_cons, List.sum_nil]
        omega
    · push_neg at hb
      obtain ⟨n, hn, heq, hbud, hstop⟩ := ih (total + (AnswerLlm2.block h).length)
      refine ⟨n + 1, Nat.succ_le_succ hn, ?_, Or.inr ?_, ?_⟩
      · simp only [AnswerLlm2.splitGo, List.take_succ_cons, AnswerLlm2.allBuckets]
        rw [if_neg (not_lt.mpr hb), heq]
      · rcases hbud with h0 | hle
        · subst h0
          simp only [List.take_succ_cons, List.take_zero, AnswerLlm2.blocksLen,
            List.map_cons, List.map_nil, List.sum_cons, List.sum_nil]
          omega
        · simp only [AnswerLlm2.blocksLen] at hle
          simp only [List.take_succ_cons, AnswerLlm2.blocksLen, List.map_cons,
            List.sum_cons]
          omega
      · rcases hstop with hlen | hgt
        · exact Or.inl (by simp [hlen])
        · refine Or.inr ?_
          simp only [AnswerLlm2.blocksLen] at hgt
          simp only [List.take_succ_cons, AnswerLlm2.blocksLen, List.map_cons,
            List.sum_cons]
          omega

theorem buckets_char_len_all1 (l : List AnswerLlm.Hit) :
    AnswerLlm.bucketsCharLen (AnswerLlm.allBuckets l) = AnswerLlm.blocksLen l := by
  induction l with
  | nil => rfl
  | cons h t ih =>
    rcases hr : AnswerLlm.allBuckets t with ⟨A, B, C⟩
    rw [hr] at ih
    simp only [AnswerLlm.allBuckets, hr, AnswerLlm.addBlock]
    split <;>
      simp only [AnswerLlm.bucketsCharLen, AnswerLlm.blocksLen, List.map_append,
        List.sum_append, List.map_cons, List.sum_cons] at ih ⊢ <;>
      omega

theorem buckets_char_len_all2 (l : List AnswerLlm2.Hit) :
    AnswerLlm2.bucketsCharLen (AnswerLlm2.allBuckets l) ≤ AnswerLlm2.blocksLen l := by
  induction l with
  | nil => exact Nat.le_refl 0
  | cons h t ih =>
    rcases hr : AnswerLlm2.allBuckets t with ⟨A, B, C⟩
    rw [hr] at ih
    simp only [AnswerLlm2.allBuckets, hr, AnswerLlm2.addBlock]
    split <;>
      simp only [AnswerLlm2.bucketsCharLen, AnswerLlm2.blocksLen, List.map_append,
        List.sum_append, List.map_cons, List.sum_cons] at ih ⊢ <;>
      omega

theorem buckets_count_all2 (l : List AnswerLlm2.Hit) :
    AnswerLlm2.bucketsCount (AnswerLlm2.allBuckets l)
      = (l.filter (fun h => AnswerLlm2.validTier (AnswerLlm2.layerTag h))).length := by
  induction l with
  | nil => rfl
  | cons h t ih =>
    rcases hr : AnswerLlm2.allBuckets t with ⟨A, B, C⟩
    rw [hr] at ih
    simp only [AnswerLlm2.allBuckets, hr, AnswerLlm2.addBlock, List.filter_cons]
    split <;> rename_i htag <;>
      simp_all [AnswerLlm2.bucketsCount, AnswerLlm2.validTier, htag] <;> omega

/-- Claim C5: in both variants, serialization stops for all layers at the
first block whose addition would exceed the global character budget (7500 in
the single-collection variant, 8000 in the multi-collection one): the buckets
hold exactly the blocks of a prefix of the hits whose blocks fit the budget,
no later hit is serialized into any bucket, the total character length of the
accepted blocks never exceeds the budget, and the prefix ends only at the end
of the hits or right before a block that would overflow. -/
theorem context_budget_stops_all_layers :
    (∀ hits : List AnswerLlm.Hit, ∃ n, n ≤ hits.length ∧
        AnswerLlm.splitBlocks hits 7500 = AnswerLlm.allBuckets (hits.take n) ∧
        AnswerLlm.blocksLen (hits.take n) ≤ 7500 ∧
        AnswerLlm.bucketsCharLen (AnswerLlm.splitBlocks hits 7500) ≤ 7500 ∧
        (n = hits.length ∨ 7500 < AnswerLlm.blocksLen (hits.take (n + 1))))
    ∧ (∀ hits : List AnswerLlm2.Hit, ∃ n, n ≤ hits.length ∧
        AnswerLlm2.splitBlocks hits 8000 = AnswerLlm2.allBuckets (hits.take n) ∧
        AnswerLlm2.blocksLen (hits.take n) ≤ 8000 ∧
        AnswerLlm2.bucketsCharLen (AnswerLlm2.splitBlocks hits 8000) ≤ 8000 ∧
        (n = hits.length ∨ 8000 < AnswerLlm2.blocksLen (hits.take (n + 1)))) := by
  constructor
  · intro hits
    obtain ⟨n, hn, heq, hbud, hstop⟩ := split_go_spec1 7500 hits 0
    have hlen : AnswerLlm.blocksLen (hits.take n) ≤ 7500 := by
      rcases hbud with h0 | hle
      · subst h0; simp [AnswerLlm.blocksLen]
      · omega
    refine ⟨n, hn, heq, hlen, ?_, by simpa using hstop⟩
    rw [show AnswerLlm.splitBlocks hits 7500 = AnswerLlm.splitGo 7500 hits 0 from rfl,
      heq, buckets_char_len_all1]
    exact hlen
  · intro hits
    obtain ⟨n, hn, heq, hbud, hstop⟩ := split_go_spec2 8000 hits 0
    have hlen : AnswerLlm2.blocksLen (hits.take n) ≤ 8000 := by
      rcases hbud with h0 | hle
      · subst h0; simp [AnswerLlm2.blocksLen]
      · omega
    refine ⟨n, hn, heq, hlen, ?_, by simpa using hstop⟩
    rw [show AnswerLlm2.splitBlocks hits 8000 = AnswerLlm2.splitGo 8000 hits 0 from rfl,
      heq]
    exact le_trans (buckets_char_len_all2 _) hlen

/-- Claim C10: in the multi-collection `split_context_by_layer`, a hit whose
derived layer tag is not exactly `L1`/`L2`/`L3` is placed in no bucket (the
bucketed-block count equals the number of valid-tag hits of the accepted
prefix) yet its block length still counts against the shared budget (the
prefix is bounded by the total length of *all* its blocks).  Concretely: a
56-character stray-tag block under a 60-character budget fills the budget, is
bucketed nowhere, and forces the following 27-character valid `L2` block to
be dropped as well. -/
theorem unknown_layer_block_consumes_budget :
    (∀ (mc : ℕ) (hits : List AnswerLlm2.Hit), ∃ n, n ≤ hits.length ∧
        AnswerLlm2.splitBlocks hits mc = AnswerLlm2.allBuckets (hits.take n) ∧
        AnswerLlm2.bucketsCount (AnswerLlm2.splitBlocks hits mc)
          = ((hits.take n).filter
              (fun h => AnswerLlm2.validTier (AnswerLlm2.layerTag h))).length ∧
        (n = 0 ∨ AnswerLlm2.blocksLen (hits.take n) ≤ mc) ∧
        (n = hits.length ∨ mc < AnswerLlm2.blocksLen (hits.take (n + 1))))
    ∧ AnswerLlm2.splitBlocks [AnswerLlm2.strayHit, AnswerLlm2.smallL2Hit] 60
        = ([], [], [])
    ∧ AnswerLlm2.validTier (AnswerLlm2.layerTag AnswerLlm2.strayHit) = false
    ∧ AnswerLlm2.layerTag AnswerLlm2.smallL2Hit = "L2"
    ∧ (AnswerLlm2.block AnswerLlm2.strayHit).length ≤ 60
    ∧ 60 < (AnswerLlm2.block AnswerLlm2.strayHit).length
        + (AnswerLlm2.block AnswerLlm2.smallL2Hit).length := by
  refine ⟨?_, by decide, by decide, by decide, by decide, by decide⟩
  intro mc hits
  obtain ⟨n, hn, heq, hbud, hstop⟩ := split_go_spec2 mc hits 0
  have hbud' : n = 0 ∨ AnswerLlm2.blocksLen (hits.take n) ≤ mc := by
    rcases hbud with h0 | hle
    · exact Or.inl h0
    · exact Or.inr (by omega)
  refine ⟨n, hn, heq, ?_, hbud', by simpa using hstop⟩
  rw [show AnswerLlm2.splitBlocks hits mc = AnswerLlm2.splitGo mc hits 0 from rfl,
    heq, buckets_count_all2]

theorem weighted_blend_length_le (l : List (ℚ × AnswerLlm.Hit)) (k : ℤ) :
    (AnswerLlm.weighted_blend l k).length ≤ (max 1 k).toNat := by
  unfold AnswerLlm.weighted_blend
  cases l with
  | nil => simp
  | cons x xs => exact List.length_take_le _ _

theorem final_hits_stage_length_le (rows : Option (List (ℚ × ℤ))) (q : String)
    (wide : List AnswerLlm.Hit) (k : ℤ) (th : ℚ) (hk : 0 < k) :
    (AnswerLlm.final_hits_stage rows q wide k th).length ≤ k.toNat := by
  have hmax : max 1 k = k := max_eq_right (by omega)
  unfold AnswerLlm.final_hits_stage
  split
  · calc (AnswerLlm.weighted_blend _ k).length ≤ (max 1 k).toNat :=
        weighted_blend_length_le _ _
    _ = k.toNat := by rw [hmax]
  · split
    · exact List.length_take_le _ _
    · exact List.length_take_le _ _

theorem top_hits_stage_length_le (rows : Option (List (ℚ × ℤ)))
    (wide : List AnswerLlm2.Hit) (k : ℤ) (th : ℚ) :
    (AnswerLlm2.top_hits_stage rows wide k th).length ≤ k.toNat := by
  unfold AnswerLlm2.top_hits_stage
  split
  · exact List.length_take_le _ _
  · exact List.length_take_le _ _

/-- Claim C1: whenever `answer_query` is called with a non-empty query,
`top_k > 0` and a threshold in `[0, 1]` and returns an `AnswerResponse`, the
returned `sources` list has at most `top_k` entries — in the
single-collection and multi-collection pipelines alike, including the
no-context terminal paths. -/
theorem sources_length_le_top_k (e1 : AnswerLlm.Env) (e2 : AnswerLlm2.Env)
    (q : String) (k : ℤ) (th : ℚ) (dv : Bool)
    (r1 : AnswerLlm.AnswerResponse) (r2 : AnswerLlm2.AnswerResponse)
    (hq : pyStrip q ≠ "") (hk : 0 < k) (h0 : 0 ≤ th) (h1 : th ≤ 1) :
    (AnswerLlm.answer_query e1 q k th dv = Except.ok r1 →
      r1.sources.length ≤ k.toNat)
    ∧ (AnswerLlm2.answer_query e2 q k th dv = Except.ok r2 →
      r2.sources.length ≤ k.toNat) := by
  constructor
  · intro h
    simp only [AnswerLlm.answer_query] at h
    rw [if_neg hq, if_neg (by omega : ¬k ≤ 0),
      if_neg (not_not_intro ⟨h0, h1⟩)] at h
    split at h
    · exact absurd h (by simp)
    · split at h
      · exact absurd h (by simp)
      · split at h
        · cases h
          simp only [AnswerLlm.AnswerResponse.sources, List.length_map]
          exact List.length_take_le _ _
        · split at h
          · cases h
            simpa using final_hits_stage_length_le _ _ _ _ _ hk
          · split at h
            · exact absurd h (by simp)
            · cases h
              simpa using final_hits_stage_length_le _ _ _ _ _ hk
  · intro h
    simp only [AnswerLlm2.answer_query] at h
    rw [if_neg hq, if_neg (by omega : ¬k ≤ 0),
      if_neg (not_not_intro ⟨h0, h1⟩)] at h
    split at h
    · exact absurd h (by simp)
    · split at h
      · exact absurd h (by simp)
      · split at h
        · split at h
          · exact absurd h (by simp)
          · cases h
            simp
        · rename_i heq
          split at h
          · exact absurd h (by simp)
          · cases h
            simp only [AnswerLlm2.AnswerResponse.sources, List.length_map]
            rw [← heq]
            exact top_hits_stage_length_le _ _ _ _

theorem sources_length_le_top_k_witness :
    ({ query := "q", answer := AnswerLlm.noContextMsg, expanded_queries := ["q"],
        sources := [], validation := none } : AnswerLlm.AnswerResponse).sources.length
      ≤ (5 : ℤ).toNat
    ∧ ({ query := "q", answer := "FALLBACK", expanded_queries := ["q"],
           sources := [], validation := none } : AnswerLlm2.AnswerResponse).sources.length
      ≤ (5 : ℤ).toNat :=
  ⟨(sources_length_le_top_k ⟨none, true, some [], none, none, "V"⟩
      ⟨none, true, some [], none, some "X", some "FALLBACK", "V"⟩ "q" 5 1 true
      { query := "q", answer := AnswerLlm.noContextMsg, expanded_queries := ["q"],
        sources := [], validation := none }
      { query := "q", answer := "FALLBACK", expanded_queries := ["q"],
        sources := [], validation := none }
      (by decide) (by decide) (by decide) (by decide)).1 (by decide),
   (sources_length_le_top_k ⟨none, true, some [], none, none, "V"⟩
      ⟨none, true, some [], none, some "X", some "FALLBACK", "V"⟩ "q" 5 1 true
      { query := "q", answer := AnswerLlm.noContextMsg, expanded_queries := ["q"],
        sources := [], validation := none }
      { query := "q", answer := "FALLBACK", expanded_queries := ["q"],
        sources := [], validation := none }
      (by decide) (by decide) (by decide) (by decide)).2 (by decide)⟩

/-- Claim C2 counterexample: in the multi-collection pipeline an empty final
candidate set does not yield the canned "no relevant section found" answer —
the response carries the fallback generation (`generate_answer_fallback`'s
output, here `"FALLBACK ANSWER"`), which differs from the canned message. -/
theorem no_context_canned_counterexample :
    AnswerLlm2.answer_query
        ⟨none, true, some [], none, some "X", some "FALLBACK ANSWER", "V"⟩ "q" 5 1 true
      = Except.ok
          { query := "q", answer := "FALLBACK ANSWER", expanded_queries := ["q"],
            sources := [], validation := none }
    ∧ "FALLBACK ANSWER" ≠ AnswerLlm.noContextMsg := by decide

/-- Claim C2 (amended): when zero hits survive filtering (the final candidate
set is empty), the single-collection pipeline returns the canned "no relevant
section found" answer with the raw top-K hits as sources, `validation = None`
and generation and validation skipped; the multi-collection pipeline instead
returns the model's fallback-knowledge answer with empty sources — not the
canned message — also with `validation = None` and citation validation
skipped. -/
theorem no_context_terminal_behavior (e1 : AnswerLlm.Env) (e2 : AnswerLlm2.Env)
    (q : String) (k : ℤ) (th : ℚ) (dv : Bool) (wide1 : List AnswerLlm.Hit)
    (wide2 : List AnswerLlm2.Hit) (fb : String)
    (hq : pyStrip q ≠ "") (hk : 0 < k) (h0 : 0 ≤ th) (h1 : th ≤ 1)
    (he1 : e1.embedOk = true) (hs1 : e1.searchHits = some wide1)
    (hf1 : AnswerLlm.final_hits_stage e1.rerankRows (pyStrip q) wide1 k th = [])
    (he2 : e2.embedOk = true) (hs2 : e2.searchHits = some wide2)
    (hf2 : AnswerLlm2.top_hits_stage e2.rerankRows wide2 k th = [])
    (hfb : e2.fallbackAnswer = some fb) :
    AnswerLlm.answer_query e1 q k th dv
      = Except.ok
          { query := pyStrip q, answer := AnswerLlm.noContextMsg,
            expanded_queries := AnswerLlm.rewrite_queries e1.rewriteParsed (pyStrip q),
            sources := (wide1.take k.toNat).map AnswerLlm.source_from_hit,
            validation := none }
    ∧ AnswerLlm2.answer_query e2 q k th dv
      = Except.ok
          { query := pyStrip q, answer := fb,
            expanded_queries := AnswerLlm2.rewrite_queries e2.rewriteParsed (pyStrip q),
            sources := [], validation := none } := by
  constructor
  · simp only [AnswerLlm.answer_query, hs1, hf1, he1]
    rw [if_neg hq, if_neg (by omega : ¬k ≤ 0), if_neg (not_not_intro ⟨h0, h1⟩)]
    simp
  · simp only [AnswerLlm2.answer_query, hs2, hf2, he2, hfb]
    rw [if_neg hq, if_neg (by omega : ¬k ≤ 0), if_neg (not_not_intro ⟨h0, h1⟩)]
    simp

theorem no_context_terminal_behavior_witness :
    AnswerLlm.answer_query ⟨none, true, some [], none, none, "V"⟩ "q" 5 1 true
      = Except.ok
          { query := "q", answer := AnswerLlm.noContextMsg,
            expanded_queries := ["q"], sources := [], validation := none }
    ∧ AnswerLlm2.answer_query ⟨none, true, some [], none, some "X", some "FB", "V"⟩
        "q" 5 1 true
      = Except.ok
          { query := "q", answer := "FB", expanded_queries := ["q"],
            sources := [], validation := none } :=
  no_context_terminal_behavior ⟨none, true, some [], none, none, "V"⟩
    ⟨none, true, some [], none, some "X", some "FB", "V"⟩ "q" 5 1 true [] [] "FB"
    (by decide) (by decide) (by decide) (by decide) (by decide) (by decide)
    (by decide) (by decide) (by decide) (by decide) (by decide)

/-- Claim C3 counterexample: with the model reranker failing (`None`), the
multi-collection pipeline returns its sources in the raw merged vector-score
order (3 before 2) — yet the repository's heuristic reranker, given the same
scored candidates (the second of which lexically matches the whole query),
orders them the other way (2 before 3).  The heuristic-reranker path is
therefore not exercised in the multi-collection variant. -/
theorem rerank_fallback_counterexample :
    AnswerLlm2.answer_query
        ⟨some ["e"], true,
         some [⟨3, "c", {}⟩, ⟨2, "c", { page_content := some "alpha beta" }⟩],
         none, some "ANS", some "FB", "VAL"⟩ "alpha beta" 5 1 true
      = Except.ok
          { query := "alpha beta", answer := "ANS", expanded_queries := ["e"],
            sources := [AnswerLlm2.hit_to_source ⟨3, "c", {}⟩,
              AnswerLlm2.hit_to_source ⟨2, "c", { page_content := some "alpha beta" }⟩],
            validation := some "VAL" }
    ∧ (AnswerLlm.heuristic_rerank "alpha beta"
          [⟨3, {}⟩, ⟨2, { search_text := some "alpha beta" }⟩]).map AnswerLlm.Hit.score
        = [2, 3] := by
  constructor
  · decide
  · simp only [AnswerLlm.heuristic_rerank, AnswerLlm.combinedScore,
      AnswerLlm.alphaDefault, AnswerLlm.betaDefault, AnswerLlm.gammaDefault]
    norm_num +decide [Py.sortByScoreDesc, Py.insertDesc, AnswerLlm.jaccard_like_overlap,
      AnswerLlm.simple_tokens, AnswerLlm.gather_text_for_overlap,
      AnswerLlm.build_act_priors, AnswerLlm.prior_boost_for_hit, Py.containsSub,
      Py.pyLower, Py.getStr, Py.joinWith, Py.listInfixOf, Py.listPrefixOf,
      AnswerLlm.tokenRuns]

/-- Claim C3 (amended): when the model reranker returns `None` or an empty
list, no failure propagates to the caller; the single-collection pipeline then
orders the candidates with the heuristic reranker and applies the
threshold-then-fallback-to-unfiltered-top-K rule to that ordering, while the
multi-collection pipeline keeps the merged vector-score ordering unchanged (it
has no heuristic reranker) and applies the same threshold-then-fallback rule
to it; with the generation oracles available, both pipelines still return an
`AnswerResponse`. -/
theorem rerank_empty_fallback :
    (∀ (rows : Option (List (ℚ × ℤ))) (q : String) (wide : List AnswerLlm.Hit)
        (k : ℤ) (th : ℚ),
        AnswerLlm.llm_rerank rows wide = none ∨ AnswerLlm.llm_rerank rows wide = some [] →
        AnswerLlm.final_hits_stage rows q wide k th
          = thresholdTopK AnswerLlm.Hit.score th k (AnswerLlm.heuristic_rerank q wide))
    ∧ (∀ (rows : Option (List (ℚ × ℤ))) (wide : List AnswerLlm2.Hit) (k : ℤ) (th : ℚ),
        AnswerLlm2.llm_rerank rows wide = none ∨ AnswerLlm2.llm_rerank rows wide = some [] →
        AnswerLlm2.ordered_stage rows wide = wide
        ∧ AnswerLlm2.top_hits_stage rows wide k th
            = thresholdTopK AnswerLlm2.Hit.score th k wide)
    ∧ (∀ (e1 : AnswerLlm.Env) (q : String) (k : ℤ) (th : ℚ) (dv : Bool)
        (wide : List AnswerLlm.Hit) (g : String),
        pyStrip q ≠ "" → 0 < k → 0 ≤ th → th ≤ 1 → e1.embedOk = true →
        e1.searchHits = some wide → e1.rerankRows = none → e1.genAnswer = some g →
        ∃ r, AnswerLlm.answer_query e1 q k th dv = Except.ok r)
    ∧ (∀ (e2 : AnswerLlm2.Env) (q : String) (k : ℤ) (th : ℚ) (dv : Bool)
        (wide : List AnswerLlm2.Hit) (g fb : String),
        pyStrip q ≠ "" → 0 < k → 0 ≤ th → th ≤ 1 → e2.embedOk = true →
        e2.searchHits = some wide → e2.rerankRows = none → e2.genAnswer = some g →
        e2.fallbackAnswer = some fb →
        ∃ r, AnswerLlm2.answer_query e2 q k th dv = Except.ok r) := by
  refine ⟨?_, ?_, ?_, ?_⟩
  · intro rows q wide k th h
    have hgoal : ∀ u : Option (List (ℚ × AnswerLlm.Hit)),
        u = AnswerLlm.llm_rerank rows wide →
        AnswerLlm.final_hits_stage rows q wide k th
          = thresholdTopK AnswerLlm.Hit.score th k (AnswerLlm.heuristic_rerank q wide) := by
      intro u hu
      unfold AnswerLlm.final_hits_stage
      rw [← hu]
      rcases h with h | h
      · rw [h] at hu
        cases u with
        | none =>
          unfold thresholdTopK AnswerLlm.heur_filter
          cases hf : (AnswerLlm.heuristic_rerank q wide).filter
              (fun x => decide (th ≤ x.score)) <;> simp [hf]
        | some l => exact absurd hu (by simp)
      · rw [h] at hu
        cases u with
        | none => exact absurd hu (by simp)
        | some l =>
          cases hu
          unfold thresholdTopK AnswerLlm.heur_filter
          cases hf : (AnswerLlm.heuristic_rerank q wide).filter
              (fun x => decide (th ≤ x.score)) <;> simp [hf]
    exact hgoal _ rfl
  · intro rows wide k th h
    constructor
    · unfold AnswerLlm2.ordered_stage
      rcases h with h | h <;> rw [h]
    · unfold AnswerLlm2.top_hits_stage AnswerLlm2.ordered_stage AnswerLlm2.score_filter
      rcases h with h | h <;> rw [h] <;>
        · unfold thresholdTopK
          cases hf : wide.filter (fun x => decide (th ≤ x.score)) <;> simp [hf]
  · intro e1 q k th dv wide g hq hk h0 h1 he hs hr hg
    simp only [AnswerLlm.answer_query, hs, hg, he]
    rw [if_neg hq, if_neg (by omega : ¬k ≤ 0), if_neg (not_not_intro ⟨h0, h1⟩)]
    simp only [not_true_eq_false, if_false, Bool.not_true]
    split
    · exact ⟨_, rfl⟩
    · split
      · exact ⟨_, rfl⟩
      · exact ⟨_, rfl⟩
  · intro e2 q k th dv wide g fb hq hk h0 h1 he hs hr hg hfb
    simp only [AnswerLlm2.answer_query, hs, hg, hfb, he]
    rw [if_neg hq, if_neg (by omega : ¬k ≤ 0), if_neg (not_not_intro ⟨h0, h1⟩)]
    simp only [not_true_eq_false, if_false, Bool.not_true]
    split
    · exact ⟨_, rfl⟩
    · exact ⟨_, rfl⟩

theorem rerank_empty_fallback_witness :
    AnswerLlm.final_hits_stage none "q" [] 5 1
      = thresholdTopK AnswerLlm.Hit.score 1 5 (AnswerLlm.heuristic_rerank "q" [])
    ∧ (AnswerLlm2.ordered_stage none [] = []
        ∧ AnswerLlm2.top_hits_stage none [] 5 1
            = thresholdTopK AnswerLlm2.Hit.score 1 5 [])
    ∧ (∃ r, AnswerLlm.answer_query ⟨none, true, some [], none, some "G", "V"⟩
        "q" 5 1 true = Except.ok r)
    ∧ (∃ r, AnswerLlm2.answer_query
        ⟨none, true, some [], none, some "G", some "FB", "V"⟩ "q" 5 1 true
        = Except.ok r) :=
  ⟨rerank_empty_fallback.1 none "q" [] 5 1 (Or.inl (by decide)),
   rerank_empty_fallback.2.1 none [] 5 1 (Or.inl (by decide)),
   rerank_empty_fallback.2.2.1 ⟨none, true, some [], none, some "G", "V"⟩
     "q" 5 1 true [] "G" (by decide) (by decide) (by decide) (by decide)
     (by decide) (by decide) (by decide) (by decide),
   rerank_empty_fallback.2.2.2 ⟨none, true, some [], none, some "G", some "FB", "V"⟩
     "q" 5 1 true [] "G" "FB" (by decide) (by decide) (by decide) (by decide)
     (by decide) (by decide) (by decide) (by decide) (by decide)⟩
